import Mathlib

/-!
Shallow embedding of the EzWallet user/group controllers
(`code/controllers/users.js`) and the email-classification helper
`checkGroupEmails`, together with proofs about the classification
partition, the orchestration order of the five mutating operations, and
the read path `getUser`.

Conventions of the embedding:
* the document store is a `Database` record holding the three collections
  (`users`, `groups`, `transactions`); every controller is a pure function
  `Database → Request → Response × Database` returning the HTTP outcome and
  the updated store;
* the auth collaborator (`verifyAuth` / `verifyMultipleAuth`) is an oracle:
  each distinct check a controller can make is a field of the `Request`
  carrying the collaborator's decision and cause for that request;
* a JavaScript `undefined` array element (produced by the value-discarding
  map callbacks, which have block bodies without `return`) is modelled as
  `none : Option String`;
* a thrown exception caught by the controller's `try/catch` is modelled by
  returning the 500 response the catch block builds, with the store in the
  state the last completed call left it.
-/

/-- A document of the `users` collection. -/
structure UserRec where
  username : String
  email : String
  role : String
  refreshToken : Option String
deriving DecidableEq, Repr

/-- A `members` array element of a group document: an email together with
the (possibly unresolved) user reference. -/
structure MemberRef where
  email : String
  user : Option UserRec
deriving DecidableEq, Repr

/-- A document of the `groups` collection. -/
structure GroupRec where
  name : String
  members : List MemberRef
deriving DecidableEq, Repr

/-- Modelled from the spec: the `transactions` model (`models/model.js`) is
not among the sources; the spec describes the collection only through the
filters the controllers use (query by `username`, delete-many by a filter
mentioning `email`), so a transaction document is modelled as carrying
exactly those two fields. -/
structure TransactionRec where
  username : String
  email : String
deriving DecidableEq, Repr

/-- The document store: the three collections the controllers touch. -/
structure Database where
  users : List UserRec
  groups : List GroupRec
  transactions : List TransactionRec
deriving DecidableEq, Repr

/-- Embeds `User.findOne({ email: e })`: first user whose email equals `e`
(exact, case-sensitive match, as in the store's query semantics). -/
def findUserByEmail (db : Database) (e : String) : Option UserRec :=
  db.users.find? (fun u => u.email = e)

/-- Embeds `Group.findOne({ name: n })`. -/
def findGroupByName (db : Database) (n : String) : Option GroupRec :=
  db.groups.find? (fun g => g.name = n)

/-- Embeds `Group.findOne({ 'members.email': e })`: first group having a
member with email `e`. -/
def findGroupWithMember (db : Database) (e : String) : Option GroupRec :=
  db.groups.find? (fun g => g.members.any (fun m => m.email = e))

/-- Embeds `Group.findOne({ name: n, 'members.email': e })`. -/
def findGroupByNameWithMember (db : Database) (n e : String) : Option GroupRec :=
  db.groups.find? (fun g => g.name = n && g.members.any (fun m => m.email = e))

/-- Embeds `Group.findOne({ name: name })` where `name` may be `undefined`
(`removeFromGroup` reaches this call without checking `req.params.name`):
the store's query builder drops filter conditions whose value is
`undefined`, so an undefined name matches the first group document. -/
def findGroupByNameOpt (db : Database) (n? : Option String) : Option GroupRec :=
  match n? with
  | none => db.groups.head?
  | some n => findGroupByName db n

/-- The four arrays `checkGroupEmails` builds while filtering, before the
value-discarding maps of its return statement: `validEmails` is the list
`memberEmails` has been narrowed to, the other three are the push targets.
Field names follow the source's local variables. -/
structure ClassificationRaw where
  validEmails : List String
  alreadyInGroup : List String
  membersNotFound : List String
  notInGroup : List String
deriving DecidableEq, Repr

/-- Embeds the filtering phase of `checkGroupEmails` (users.js lines
434-460). `asyncFilter` keeps elements in order, so each pass is a
`List.filter`; an element rejected by a pass is exactly one pushed into the
corresponding side array, hence the complements. `groupName === undefined`
is `groupName = none`. -/
def checkGroupEmailsRaw (db : Database) (memberEmails : List String)
    (groupName : Option String) : ClassificationRaw :=
  let membersNotFound := memberEmails.filter (fun e => (findUserByEmail db e).isNone)
  let found := memberEmails.filter (fun e => (findUserByEmail db e).isSome)
  match groupName with
  | none =>
    let alreadyInGroup := found.filter (fun e => (findGroupWithMember db e).isSome)
    let valid := found.filter (fun e => (findGroupWithMember db e).isNone)
    { validEmails := valid, alreadyInGroup := alreadyInGroup,
      membersNotFound := membersNotFound, notInGroup := [] }
  | some g =>
    let notInGroup := found.filter (fun e => (findGroupByNameWithMember db g e).isNone)
    let valid := found.filter (fun e => (findGroupByNameWithMember db g e).isSome)
    { validEmails := valid, alreadyInGroup := [],
      membersNotFound := membersNotFound, notInGroup := notInGroup }

/-- Embeds a map whose callback has a block body with no `return`
(`.map((email) => { email; })`): every element of the result is
`undefined`, modelled as `none`; only the length survives. -/
def mapDiscard (l : List α) : List (Option String) :=
  l.map (fun _ => none)

/-- The object `checkGroupEmails` returns: four arrays of `undefined`
values (see `mapDiscard`). -/
structure CheckGroupEmailsResult where
  validEmails : List (Option String)
  alreadyInGroup : List (Option String)
  membersNotFound : List (Option String)
  notInGroup : List (Option String)
deriving DecidableEq, Repr

/-- Embeds `checkGroupEmails` (users.js lines 434-476): the filtering phase
followed by the return statement's value-discarding maps. -/
def checkGroupEmails (db : Database) (memberEmails : List String)
    (groupName : Option String) : CheckGroupEmailsResult :=
  let r := checkGroupEmailsRaw db memberEmails groupName
  { validEmails := mapDiscard r.validEmails,
    alreadyInGroup := mapDiscard r.alreadyInGroup,
    membersNotFound := mapDiscard r.membersNotFound,
    notInGroup := mapDiscard r.notInGroup }

/-- The decision the auth collaborator returns for one check:
`{ authorized, cause }`. -/
structure AuthResult where
  authorized : Bool
  cause : String
deriving DecidableEq, Repr

/-- The parts of an incoming request the controllers read. The auth
collaborator is an oracle: each distinct check a controller can make
(`verifyAuth` with `Group`, `verifyAuth` with `Admin`,
`verifyMultipleAuth` with `[User, Admin]`) has its decision for this
request recorded in a field. `pathSegments` is `req.path.split('/')`. -/
structure Request where
  bodyName : Option String
  paramsName : Option String
  memberEmails : Option (List String)
  bodyEmail : Option String
  paramsUsername : Option String
  refreshToken : Option String
  pathSegments : List String
  groupAuth : AuthResult
  adminAuth : AuthResult
  userAdminAuth : AuthResult
deriving DecidableEq, Repr

/-- Embeds `req.path.split('/').slice(-1)[0]`: the last path segment
(`none` when the split result is empty, in which case `[0]` would be
`undefined` and compare unequal to every segment literal). -/
def lastSegment (req : Request) : Option String :=
  req.pathSegments.getLast?

/-- The JSON body shape of `getUser`'s success response. -/
structure UserData where
  username : String
  email : String
  role : String
deriving DecidableEq, Repr

/-- The `group` object of the group-mutating success responses:
`{ name, members }` where `members` is the value-discarded map of the
member array (all entries `undefined`). -/
structure GroupPayload where
  name : String
  members : List (Option String)
deriving DecidableEq, Repr

/-- HTTP outcome of a controller call. `err s m` is `status(s)` with body
`{ error: m }`; `msg s m` is `status(s)` with body `{ message: m }`;
`rawMsg s m` is `status(s)` with a bare string body (`res.json(err.message)`
in the catch blocks of `deleteUser`/`deleteGroup`). The success
constructors carry status 200 and the body shape of the respective
controller; `refreshedTokenMessage` is an opaque pass-through and is not
modelled. -/
inductive Response where
  | err : Nat → String → Response
  | msg : Nat → String → Response
  | rawMsg : Nat → String → Response
  | groupSuccess : GroupPayload → List (Option String) → List (Option String) → Response
  | removeSuccess : GroupPayload → List (Option String) → List (Option String) → Response
  | userSuccess : UserData → Response
  | deleteUserSuccess : Nat → Bool → Response
deriving DecidableEq, Repr

/-- Status code of a response (the success constructors respond 200). -/
def Response.status : Response → Nat
  | .err s _ => s
  | .msg s _ => s
  | .rawMsg s _ => s
  | _ => 200

/-- Splits a character list on a separator; `splitOnChar c l` always
returns at least one (possibly empty) chunk. -/
def splitOnChar (c : Char) : List Char → List (List Char)
  | [] => [[]]
  | a :: rest =>
    match splitOnChar c rest with
    | [] => if a = c then [[], []] else [[a]]
    | h :: t => if a = c then [] :: h :: t else (a :: h) :: t

/-- Modelled from the spec: `isEmail` lives in `controllers/utils.js`,
which is not among the sources; the spec describes it only as an
`isEmail`-style syntactic validator run before classification, so it is
modelled as requiring a nonempty local part, a single `@`, and a domain
containing a dot. No theorem below depends on its exact acceptance set. -/
def isEmail (s : String) : Bool :=
  match splitOnChar '@' s.data with
  | [lp, dom] => !lp.isEmpty && dom.contains '.'
  | _ => false

/-- Embeds the member-building step shared by the three group-mutating
controllers: `validEmails.map(async (e) => ({ email: e.email, user: await
User.findOne({ email: e.email }) }))`. Its input is the `validEmails`
array of `checkGroupEmails`, whose elements are `undefined` (`none`);
reading `.email` of `undefined` throws a `TypeError`, which the awaited
`Promise.all` surfaces to the controller's catch block. -/
def buildMembers (db : Database) (es : List (Option String)) :
    Except String (List MemberRef) :=
  es.mapM (fun e? =>
    match e? with
    | none => .error "Cannot read properties of undefined"
    | some e => .ok { email := e, user := findUserByEmail db e })

/-- Embeds `Group.updateOne({ name: n }, ...)`: rewrites the first group
document whose name is `n`. -/
def updateFirstGroup (gs : List GroupRec) (n : String) (f : GroupRec → GroupRec) :
    List GroupRec :=
  match gs with
  | [] => []
  | g :: rest => if g.name = n then f g :: rest else g :: updateFirstGroup rest n f

/-- Embeds `createGroup` (users.js lines 76-126), statement by statement:
missing-parameter check, `Group` auth check, duplicate-name check,
classification, empty-`validEmails` check, member building (which throws,
see `buildMembers`), and — were it reached — the save and the response. -/
def createGroup (db : Database) (req : Request) : Response × Database :=
  match req.bodyName, req.memberEmails with
  | some name, some memberEmails =>
    if !req.groupAuth.authorized then (.err 401 req.groupAuth.cause, db)
    else if (findGroupByName db name).isSome then
      (.err 401 "A group with the same name already exists", db)
    else
      let r := checkGroupEmails db memberEmails none
      if r.validEmails.length = 0 then (.err 401 "All the emails are invalid", db)
      else
        match buildMembers db r.validEmails with
        | .error m => (.err 500 m, db)
        | .ok members =>
          let g : GroupRec := { name := name, members := members }
          (.groupSuccess { name := g.name, members := mapDiscard g.members }
            r.alreadyInGroup r.membersNotFound,
           { db with groups := db.groups ++ [g] })
  | _, _ => (.msg 401 "Missing parameters", db)

/-- Embeds the route-intent dispatch blocks of `addToGroup` (users.js lines
211-221, with `s1 = add`, `s2 = insert`) and `removeFromGroup` (lines
283-291, with `s1 = remove`, `s2 = pull`): the trailing path segment picks
which `verifyAuth` decision (`a1` for `s1`, `a2` for `s2`) gates the
request; any other segment is rejected. `some resp` is an early return. -/
def routeDispatch (req : Request) (s1 s2 : String) (a1 a2 : AuthResult) :
    Option Response :=
  if lastSegment req = some s1 then
    if !a1.authorized then some (.err 401 a1.cause) else none
  else if lastSegment req = some s2 then
    if !a2.authorized then some (.err 401 a2.cause) else none
  else some (.err 400 "Path not correct")

/-- Embeds `addToGroup` (users.js lines 198-263): missing-parameter check,
`[User, Admin]` multi-auth check, route-intent dispatch on the trailing
path segment (`add` → `Group` auth, `insert` → `Admin` auth, otherwise
`Path not correct`), group-existence check, syntactic email check,
classification, empty-`validEmails` check, member building (throws), and
the dead update/response tail. -/
def addToGroup (db : Database) (req : Request) : Response × Database :=
  match req.paramsName, req.memberEmails with
  | some name, some memberEmails =>
    if !req.userAdminAuth.authorized then (.err 401 req.userAdminAuth.cause, db)
    else
      match routeDispatch req "add" "insert" req.groupAuth req.adminAuth with
      | some resp => (resp, db)
      | none =>
        if (findGroupByName db name).isNone then (.err 400 "Group not found", db)
        else if memberEmails.any (fun e => !isEmail e) then
          (.err 400 "Mail not valid", db)
        else
          let r := checkGroupEmails db memberEmails none
          if r.validEmails.length = 0 then (.err 400 "All the emails are invalid", db)
          else
            match buildMembers db r.validEmails with
            | .error m => (.err 500 m, db)
            | .ok membersToAdd =>
              let push := fun (g : GroupRec) =>
                { g with members := g.members ++ membersToAdd }
              let db' := { db with groups := updateFirstGroup db.groups name push }
              match findGroupByName db' name with
              | none => (.err 500 "Cannot read properties of null", db')
              | some g =>
                (.groupSuccess { name := name, members := mapDiscard g.members }
                  r.alreadyInGroup r.membersNotFound, db')
  | _, _ => (.err 400 "The request body does not contain all the necessary attributes", db)

/-- Embeds `removeFromGroup` (users.js lines 275-332): missing
`memberEmails` check (before everything else, including the path check),
route-intent dispatch (`remove` → `Group` auth, `pull` → `Admin` auth,
otherwise `Path not correct`), group lookup by the possibly-undefined
`req.params.name`, classification with `targetGroup = name`,
empty-`validEmails` check, member building (throws), and the dead
pull/response tail. -/
def removeFromGroup (db : Database) (req : Request) : Response × Database :=
  match req.memberEmails with
  | none => (.err 401 "Missing parameters", db)
  | some memberEmails =>
    match routeDispatch req "remove" "pull" req.groupAuth req.adminAuth with
    | some resp => (resp, db)
    | none =>
      if (findGroupByNameOpt db req.paramsName).isNone then
        (.err 401 "Group not found", db)
      else
        let r := checkGroupEmails db memberEmails req.paramsName
        if r.validEmails.length = 0 then (.err 401 "All the emails are invalid", db)
        else
          match buildMembers db r.validEmails with
          | .error m => (.err 500 m, db)
          | .ok membersToRemove =>
            let pull := fun (g : GroupRec) =>
              { g with members := g.members.filter (fun m =>
                  !(membersToRemove.any (fun c => c.email = m.email && c.user = m.user))) }
            let db' :=
              match req.paramsName with
              | none => db
              | some n => { db with groups := updateFirstGroup db.groups n pull }
            match findGroupByNameOpt db' req.paramsName with
            | none => (.err 500 "Cannot read properties of null", db')
            | some g =>
              (.removeSuccess
                { name := req.paramsName.getD "", members := mapDiscard g.members }
                r.notInGroup r.membersNotFound, db')

/-- Embeds `deleteUser` (users.js lines 343-392): `Admin` auth check,
missing-email check, syntactic email check, user lookup, transaction count
by username, transaction delete-many by email — and then
`const userGroup = Group.find();` **without** `await`, immediately followed
by `userGroup.forEach(...)`. The un-awaited call yields the query object,
not an array; it has no `forEach` method, so a `TypeError` is thrown and
caught, and the catch block answers `res.status(500).json(err.message)`
with the transactions already deleted. The statements after the loop
(user deletion, success response) are unreachable. -/
def deleteUser (db : Database) (req : Request) : Response × Database :=
  if !req.adminAuth.authorized then
    (.msg 401 "Unauthorized: user is not an admin!", db)
  else
    match req.bodyEmail with
    | none => (.msg 400 "Missing parameters", db)
    | some email =>
      if !isEmail email then (.err 400 "Mail not valid", db)
      else
        match findUserByEmail db email with
        | none => (.msg 400 "User not found", db)
        | some _user =>
          let remaining := db.transactions.filter (fun t => !(t.email = email))
          let db1 := { db with transactions := remaining }
          (.rawMsg 500 "userGroup.forEach is not a function", db1)

/-- Embeds `deleteGroup` (users.js lines 401-431): `Admin` auth check,
missing-name check, empty-name check, `Group` auth check, delete-many by
name, `deletedCount` check, confirmation message. -/
def deleteGroup (db : Database) (req : Request) : Response × Database :=
  if !req.adminAuth.authorized then
    (.msg 401 "Unauthorized: user is not an admin!", db)
  else
    match req.bodyName with
    | none => (.msg 400 "Missing parameters", db)
    | some name =>
      if name = "" then (.msg 400 "the request body is an empty string", db)
      else if !req.groupAuth.authorized then (.msg 401 req.groupAuth.cause, db)
      else
        let remaining := db.groups.filter (fun g => !(g.name = name))
        let deletedCount := db.groups.length - remaining.length
        let db' := { db with groups := remaining }
        if deletedCount = 0 then (.msg 400 "Group not found", db)
        else (.msg 200 "Group deleted", db')

/-- Embeds `getUser` (users.js lines 40-63): `[User, Admin]` multi-auth
check, then `User.findOne({ refreshToken: req.cookies.refreshToken })` —
the `username` path parameter is read into a local but never used. A
missing cookie is an undefined filter value, which the query builder
drops, matching the first user. -/
def getUser (db : Database) (req : Request) : Response × Database :=
  if !req.userAdminAuth.authorized then (.err 401 req.userAdminAuth.cause, db)
  else
    let user? :=
      match req.refreshToken with
      | none => db.users.head?
      | some t => db.users.find? (fun u => u.refreshToken = some t)
    match user? with
    | none => (.err 400 "User not found", db)
    | some u => (.userSuccess { username := u.username, email := u.email, role := u.role }, db)

/-- Both filter passes of a complementary predicate pair together permute
the filtered list. -/
theorem filter_not_filter_perm (p q : α → Bool) (h : ∀ a, q a = !p a)
    (l : List α) : (l.filter p ++ l.filter q).Perm l := by
  induction l with
  | nil => simp
  | cons a t ih =>
    cases hp : p a with
    | false =>
      have hq : q a = true := by rw [h a, hp]; rfl
      simp only [List.filter_cons, hp, hq, cond_true, cond_false, if_true, if_false]
      exact List.perm_middle.trans (ih.cons a)
    | true =>
      have hq : q a = false := by rw [h a, hp]; rfl
      simp only [List.filter_cons, hp, hq, cond_true, cond_false, if_true, if_false]
      exact ih.cons a

/-- Every element of a value-discarding map is `undefined`. -/
theorem mapDiscard_allNone (l : List α) : ∀ x ∈ mapDiscard l, x = none := by
  intro x hx
  simp [mapDiscard] at hx
  exact hx.2

/-- A value-discarding map keeps the length. -/
theorem mapDiscard_length (l : List α) : (mapDiscard l).length = l.length := by
  simp [mapDiscard]

/-- Member building on a nonempty all-`undefined` array throws on its first
element. -/
theorem buildMembers_allNone (db : Database) (l : List (Option String))
    (hne : l ≠ []) (hall : ∀ x ∈ l, x = none) :
    buildMembers db l = .error "Cannot read properties of undefined" := by
  cases l with
  | nil => exact absurd rfl hne
  | cons a t =>
    have ha : a = none := hall a (by simp)
    subst ha
    rfl

/-- The `validEmails` array `checkGroupEmails` returns is the
value-discarded image of the filtered list. -/
theorem checkGroupEmails_validEmails (db : Database) (es : List String)
    (g? : Option String) :
    (checkGroupEmails db es g?).validEmails
      = mapDiscard (checkGroupEmailsRaw db es g?).validEmails := rfl

/-- `createGroup` leaves the store untouched on every input: each failing
check returns early, and the one mutating path (the group save) sits behind
the member-building step, which always throws (see `buildMembers`). -/
theorem createGroup_snd (db : Database) (req : Request) :
    (createGroup db req).2 = db := by
  unfold createGroup
  split
  · rename_i n es hn hes
    split
    · rfl
    · split
      · rfl
      · dsimp only
        split
        · rfl
        · rename_i hlen
          have hne : (checkGroupEmailsRaw db es none).validEmails ≠ [] := by
            intro h0
            exact hlen (by simp [checkGroupEmails_validEmails, h0, mapDiscard])
          rw [checkGroupEmails_validEmails,
            buildMembers_allNone db _ (by simp [mapDiscard, hne]) (mapDiscard_allNone _)]
  · rfl

/-- `addToGroup` leaves the store untouched on every input, for the same
reason as `createGroup`: the member push is behind the throwing
member-building step. -/
theorem addToGroup_snd (db : Database) (req : Request) :
    (addToGroup db req).2 = db := by
  unfold addToGroup
  split
  · rename_i n es hn hes
    split
    · rfl
    · split
      · rfl
      · split
        · rfl
        · split
          · rfl
          · dsimp only
            split
            · rfl
            · rename_i hlen
              have hne : (checkGroupEmailsRaw db es none).validEmails ≠ [] := by
                intro h0
                exact hlen (by simp [checkGroupEmails_validEmails, h0, mapDiscard])
              rw [checkGroupEmails_validEmails,
                buildMembers_allNone db _ (by simp [mapDiscard, hne]) (mapDiscard_allNone _)]
  · rfl

/-- `removeFromGroup` leaves the store untouched on every input: the member
pull is behind the throwing member-building step. -/
theorem removeFromGroup_snd (db : Database) (req : Request) :
    (removeFromGroup db req).2 = db := by
  unfold removeFromGroup
  split
  · rfl
  · rename_i es hes
    split
    · rfl
    · split
      · rfl
      · dsimp only
        split
        · rfl
        · rename_i hlen
          have hne : (checkGroupEmailsRaw db es req.paramsName).validEmails ≠ [] := by
            intro h0
            exact hlen (by simp [checkGroupEmails_validEmails, h0, mapDiscard])
          rw [checkGroupEmails_validEmails,
            buildMembers_allNone db _ (by simp [mapDiscard, hne]) (mapDiscard_allNone _)]

/-- A `createGroup` request that passes every check and has at least one
valid email reaches the member-building step and throws: the controller
answers 500 and saves nothing. -/
theorem createGroup_crash (db : Database) (req : Request) (n : String)
    (es : List String)
    (hn : req.bodyName = some n) (hes : req.memberEmails = some es)
    (ha : req.groupAuth.authorized = true)
    (hg : findGroupByName db n = none)
    (hv : (checkGroupEmailsRaw db es none).validEmails ≠ []) :
    createGroup db req = (.err 500 "Cannot read properties of undefined", db) := by
  obtain ⟨bn, pn, me, be, pu, rt, ps, ga, aa, ua⟩ := req
  simp only at hn hes ha
  subst hn; subst hes
  unfold createGroup
  dsimp only
  rw [checkGroupEmails_validEmails,
    buildMembers_allNone db _ (by simp [mapDiscard, hv]) (mapDiscard_allNone _)]
  simp [ha, hg, checkGroupEmails_validEmails, mapDiscard, hv]

/-- An `addToGroup` request that passes every check and has at least one
valid email reaches the member-building step and throws: the controller
answers 500 and pushes nothing. -/
theorem addToGroup_crash (db : Database) (req : Request) (n : String)
    (es : List String)
    (hn : req.paramsName = some n) (hes : req.memberEmails = some es)
    (hma : req.userAdminAuth.authorized = true)
    (hdisp : routeDispatch req "add" "insert" req.groupAuth req.adminAuth = none)
    (hg : (findGroupByName db n).isNone = false)
    (hmail : (es.any fun e => !isEmail e) = false)
    (hv : (checkGroupEmailsRaw db es none).validEmails ≠ []) :
    addToGroup db req = (.err 500 "Cannot read properties of undefined", db) := by
  obtain ⟨bn, pn, me, be, pu, rt, ps, ga, aa, ua⟩ := req
  simp only at hn hes hma hdisp
  subst hn; subst hes
  unfold addToGroup
  dsimp only
  rw [hdisp]
  rw [checkGroupEmails_validEmails,
    buildMembers_allNone db _ (by simp [mapDiscard, hv]) (mapDiscard_allNone _)]
  simp [hma, hg, hmail, checkGroupEmails_validEmails, mapDiscard, hv]

/-- A `removeFromGroup` request that passes every check and has at least
one valid email reaches the member-building step and throws: the
controller answers 500 and pulls nothing. -/
theorem removeFromGroup_crash (db : Database) (req : Request)
    (es : List String)
    (hes : req.memberEmails = some es)
    (hdisp : routeDispatch req "remove" "pull" req.groupAuth req.adminAuth = none)
    (hg : (findGroupByNameOpt db req.paramsName).isNone = false)
    (hv : (checkGroupEmailsRaw db es req.paramsName).validEmails ≠ []) :
    removeFromGroup db req = (.err 500 "Cannot read properties of undefined", db) := by
  obtain ⟨bn, pn, me, be, pu, rt, ps, ga, aa, ua⟩ := req
  simp only at hes hdisp hg hv
  subst hes
  unfold removeFromGroup
  dsimp only
  rw [hdisp]
  rw [checkGroupEmails_validEmails,
    buildMembers_allNone db _ (by simp [mapDiscard, hv]) (mapDiscard_allNone _)]
  simp [hg, checkGroupEmails_validEmails, mapDiscard, hv]

/-- Elements kept by one pass over a filtered list never satisfy the
complementary pass. -/
theorem mem_filter_disjoint (l : List α) (p r s : α → Bool)
    (hr : ∀ a, r a = !s a) :
    ∀ a ∈ (l.filter p).filter s, a ∉ (l.filter p).filter r := by
  intro a ha hb
  simp only [List.mem_filter] at ha hb
  rw [hr a, ha.2] at hb
  simp at hb

/-- Elements of a second-pass filter never land in the complement of the
first pass. -/
theorem mem_filter_sub_disjoint (l : List α) (p q s : α → Bool)
    (hq : ∀ a, q a = !p a) :
    ∀ a ∈ (l.filter p).filter s, a ∉ l.filter q := by
  intro a ha hb
  simp only [List.mem_filter] at ha hb
  rw [hq a, ha.1.2] at hb
  simp at hb

/-- Mirror image of `mem_filter_sub_disjoint`. -/
theorem mem_filter_sub_disjoint_rev (l : List α) (p q s : α → Bool)
    (hq : ∀ a, q a = !p a) :
    ∀ a ∈ l.filter q, a ∉ (l.filter p).filter s := by
  intro a ha hb
  simp only [List.mem_filter] at ha hb
  rw [hq a, hb.1.2] at ha
  simp at ha

/-- The three nonempty classification lists of the `targetGroup`-absent
branch concatenate to a permutation of the input. -/
theorem perm_helper_none (l : List α) (p q r s : α → Bool)
    (hq : ∀ a, q a = !p a) (hr : ∀ a, r a = !s a) :
    ((l.filter p).filter s ++ (l.filter p).filter r ++ l.filter q ++ []).Perm l := by
  have h1 : ((l.filter p).filter s ++ (l.filter p).filter r).Perm (l.filter p) :=
    filter_not_filter_perm s r (fun a => by rw [hr a]) _
  have h2 : (l.filter p ++ l.filter q).Perm l := filter_not_filter_perm p q hq l
  have h3 := (h1.append_right (l.filter q)).trans h2
  simpa using h3

/-- The three nonempty classification lists of the `targetGroup`-present
branch concatenate to a permutation of the input. -/
theorem perm_helper_some (l : List α) (p q r s : α → Bool)
    (hq : ∀ a, q a = !p a) (hs : ∀ a, s a = !r a) :
    ((l.filter p).filter r ++ [] ++ l.filter q ++ (l.filter p).filter s).Perm l := by
  have h1 : ((l.filter p).filter r ++ (l.filter p).filter s).Perm (l.filter p) :=
    filter_not_filter_perm r s hs _
  have h2 : (l.filter p ++ l.filter q).Perm l := filter_not_filter_perm p q hq l
  have h3 := (h1.append_right (l.filter q)).trans h2
  have h4 : (l.filter q ++ (l.filter p).filter s).Perm
      ((l.filter p).filter s ++ l.filter q) := List.perm_append_comm
  have h5 := h4.append_left ((l.filter p).filter r)
  have h6 : ((l.filter p).filter r ++ ((l.filter p).filter s ++ l.filter q)).Perm l := by
    simpa [List.append_assoc] using h3
  have h7 := h5.trans h6
  simpa [List.append_assoc] using h7

/-- A registered user who belongs to no group. -/
def userA : UserRec :=
  { username := "ua", email := "a@x.com", role := "Regular", refreshToken := some "tokA" }

/-- A registered user who is a member of group `G`. -/
def userB : UserRec :=
  { username := "ub", email := "b@x.com", role := "Regular", refreshToken := some "tokB" }

/-- A stored group containing `userB`. -/
def grpG : GroupRec :=
  { name := "G", members := [{ email := "b@x.com", user := some userB }] }

/-- A small store used by the concrete instances below. -/
def dbAB : Database := { users := [userA, userB], groups := [grpG], transactions := [] }

/-- An auth decision granting the check. -/
def authYes : AuthResult := { authorized := true, cause := "Authorized" }

/-- An auth decision denying the check. -/
def authNo : AuthResult := { authorized := false, cause := "Unauthorized" }

/-- A request template: no parameters, every auth check granted. -/
def baseReq : Request :=
  { bodyName := none, paramsName := none, memberEmails := none,
    bodyEmail := none, paramsUsername := none, refreshToken := none,
    pathSegments := [], groupAuth := authYes, adminAuth := authYes,
    userAdminAuth := authYes }

/-- ASCII lowercase of one character (the claim's case-insensitivity is on
email strings, which are ASCII). -/
def lowerChar (c : Char) : Char :=
  if 65 ≤ c.toNat && c.toNat ≤ 90 then Char.ofNat (c.toNat + 32) else c

/-- Case-normalization of an email string, as claim C1 describes it. -/
def specCaseNormalize (s : String) : String := .mk (s.data.map lowerChar)

/-- De-duplication of the candidate list, case-insensitively on the email
string, as claim C1 describes it. -/
def specDedupCaseInsensitive (l : List String) : List String :=
  (l.map specCaseNormalize).dedup

/-- The union of the four arrays `checkGroupEmails` returns. -/
def classificationUnion (r : CheckGroupEmailsResult) : List (Option String) :=
  r.validEmails ++ r.alreadyInGroup ++ r.membersNotFound ++ r.notInGroup

/-- The property claim C1 asserts of the arrays `checkGroupEmails`
returns, stated from the claim's words (the spec side of the refinement):
the four output sets are pairwise disjoint, their union is exactly the set
of distinct case-normalized input emails, and de-duplication means no
distinct input contributes more than one entry overall. -/
def specClassificationPartition (db : Database) (input : List String)
    (g? : Option String) : Prop :=
  ((∀ x ∈ (checkGroupEmails db input g?).validEmails,
      x ∉ (checkGroupEmails db input g?).alreadyInGroup) ∧
   (∀ x ∈ (checkGroupEmails db input g?).validEmails,
      x ∉ (checkGroupEmails db input g?).membersNotFound) ∧
   (∀ x ∈ (checkGroupEmails db input g?).validEmails,
      x ∉ (checkGroupEmails db input g?).notInGroup) ∧
   (∀ x ∈ (checkGroupEmails db input g?).alreadyInGroup,
      x ∉ (checkGroupEmails db input g?).membersNotFound) ∧
   (∀ x ∈ (checkGroupEmails db input g?).alreadyInGroup,
      x ∉ (checkGroupEmails db input g?).notInGroup) ∧
   (∀ x ∈ (checkGroupEmails db input g?).membersNotFound,
      x ∉ (checkGroupEmails db input g?).notInGroup)) ∧
  (∀ e ∈ specDedupCaseInsensitive input,
    some e ∈ classificationUnion (checkGroupEmails db input g?)) ∧
  (∀ x ∈ classificationUnion (checkGroupEmails db input g?),
    ∃ e ∈ specDedupCaseInsensitive input, x = some e) ∧
  (classificationUnion (checkGroupEmails db input g?)).length
    = (specDedupCaseInsensitive input).length

/-- Claim C1 is false on the code: with registered, group-free user
`a@x.com` and unregistered `c@x.com`, the call classifies one email into
`validEmails` and one into `membersNotFound`, but both returned entries
are `undefined`, so the arrays are not disjoint and their union is not the
set of distinct case-normalized input emails. -/
theorem claim1_counterexample :
    ¬ specClassificationPartition dbAB ["a@x.com", "c@x.com"] none := by
  unfold specClassificationPartition
  decide

/-- Claim C1 amended: the four classification lists `checkGroupEmails`
builds before its final value-discarding maps are pairwise disjoint and
their concatenation is a permutation of the input list — exact,
case-sensitive string matching, with no de-duplication, so a duplicated
candidate yields duplicate entries, all inside the single list it is
classified into; the arrays actually returned are the value-discarded
images of these lists (every element `undefined`, only lengths kept). -/
theorem claim1_amended_partition (db : Database) (input : List String)
    (g? : Option String) :
    ((∀ e ∈ (checkGroupEmailsRaw db input g?).validEmails,
        e ∉ (checkGroupEmailsRaw db input g?).alreadyInGroup) ∧
     (∀ e ∈ (checkGroupEmailsRaw db input g?).validEmails,
        e ∉ (checkGroupEmailsRaw db input g?).membersNotFound) ∧
     (∀ e ∈ (checkGroupEmailsRaw db input g?).validEmails,
        e ∉ (checkGroupEmailsRaw db input g?).notInGroup) ∧
     (∀ e ∈ (checkGroupEmailsRaw db input g?).alreadyInGroup,
        e ∉ (checkGroupEmailsRaw db input g?).membersNotFound) ∧
     (∀ e ∈ (checkGroupEmailsRaw db input g?).alreadyInGroup,
        e ∉ (checkGroupEmailsRaw db input g?).notInGroup) ∧
     (∀ e ∈ (checkGroupEmailsRaw db input g?).membersNotFound,
        e ∉ (checkGroupEmailsRaw db input g?).notInGroup)) ∧
    ((checkGroupEmailsRaw db input g?).validEmails
      ++ (checkGroupEmailsRaw db input g?).alreadyInGroup
      ++ (checkGroupEmailsRaw db input g?).membersNotFound
      ++ (checkGroupEmailsRaw db input g?).notInGroup).Perm input ∧
    (checkGroupEmails db input g?).validEmails
        = mapDiscard (checkGroupEmailsRaw db input g?).validEmails ∧
    (checkGroupEmails db input g?).alreadyInGroup
        = mapDiscard (checkGroupEmailsRaw db input g?).alreadyInGroup ∧
    (checkGroupEmails db input g?).membersNotFound
        = mapDiscard (checkGroupEmailsRaw db input g?).membersNotFound ∧
    (checkGroupEmails db input g?).notInGroup
        = mapDiscard (checkGroupEmailsRaw db input g?).notInGroup := by
  cases g? with
  | none =>
    simp only [checkGroupEmailsRaw]
    refine ⟨⟨?_, ?_, by simp, ?_, by simp, by simp⟩, ?_, rfl, rfl, rfl, rfl⟩
    · exact mem_filter_disjoint input (fun e => (findUserByEmail db e).isSome)
        (fun e => (findGroupWithMember db e).isSome)
        (fun e => (findGroupWithMember db e).isNone)
        (fun a => by cases h : findGroupWithMember db a <;> simp [h])
    · exact mem_filter_sub_disjoint input (fun e => (findUserByEmail db e).isSome)
        (fun e => (findUserByEmail db e).isNone)
        (fun e => (findGroupWithMember db e).isNone)
        (fun a => by cases h : findUserByEmail db a <;> simp [h])
    · exact mem_filter_sub_disjoint input (fun e => (findUserByEmail db e).isSome)
        (fun e => (findUserByEmail db e).isNone)
        (fun e => (findGroupWithMember db e).isSome)
        (fun a => by cases h : findUserByEmail db a <;> simp [h])
    · exact perm_helper_none input (fun e => (findUserByEmail db e).isSome)
        (fun e => (findUserByEmail db e).isNone)
        (fun e => (findGroupWithMember db e).isSome)
        (fun e => (findGroupWithMember db e).isNone)
        (fun a => by cases h : findUserByEmail db a <;> simp [h])
        (fun a => by cases h : findGroupWithMember db a <;> simp [h])
  | some g =>
    simp only [checkGroupEmailsRaw]
    refine ⟨⟨by simp, ?_, ?_, by simp, by simp, ?_⟩, ?_, rfl, rfl, rfl, rfl⟩
    · exact mem_filter_sub_disjoint input (fun e => (findUserByEmail db e).isSome)
        (fun e => (findUserByEmail db e).isNone)
        (fun e => (findGroupByNameWithMember db g e).isSome)
        (fun a => by cases h : findUserByEmail db a <;> simp [h])
    · exact mem_filter_disjoint input (fun e => (findUserByEmail db e).isSome)
        (fun e => (findGroupByNameWithMember db g e).isNone)
        (fun e => (findGroupByNameWithMember db g e).isSome)
        (fun a => by cases h : findGroupByNameWithMember db g a <;> simp [h])
    · exact mem_filter_sub_disjoint_rev input (fun e => (findUserByEmail db e).isSome)
        (fun e => (findUserByEmail db e).isNone)
        (fun e => (findGroupByNameWithMember db g e).isNone)
        (fun a => by cases h : findUserByEmail db a <;> simp [h])
    · exact perm_helper_some input (fun e => (findUserByEmail db e).isSome)
        (fun e => (findUserByEmail db e).isNone)
        (fun e => (findGroupByNameWithMember db g e).isSome)
        (fun e => (findGroupByNameWithMember db g e).isNone)
        (fun a => by cases h : findUserByEmail db a <;> simp [h])
        (fun a => by cases h : findGroupByNameWithMember db g a <;> simp [h])

/-- Claim C2: per-candidate placement of `checkGroupEmails` — an email
with no registered user goes to `membersNotFound` only; a registered email
with `targetGroup` absent goes to `alreadyInGroup` when some group
contains it and to `validEmails` otherwise; with `targetGroup` present it
goes to `validEmails` when that group contains it and to `notInGroup`
otherwise. Placement refers to the classification lists the function
builds (its final maps erase the values — claim C3's subject). -/
theorem claim2_placement (db : Database) (input : List String)
    (g? : Option String) (e : String) (he : e ∈ input) :
    (findUserByEmail db e = none →
      e ∈ (checkGroupEmailsRaw db input g?).membersNotFound ∧
      e ∉ (checkGroupEmailsRaw db input g?).validEmails ∧
      e ∉ (checkGroupEmailsRaw db input g?).alreadyInGroup ∧
      e ∉ (checkGroupEmailsRaw db input g?).notInGroup) ∧
    (∀ u, findUserByEmail db e = some u → g? = none →
      (∀ grp, findGroupWithMember db e = some grp →
        e ∈ (checkGroupEmailsRaw db input g?).alreadyInGroup ∧
        e ∉ (checkGroupEmailsRaw db input g?).validEmails ∧
        e ∉ (checkGroupEmailsRaw db input g?).membersNotFound ∧
        e ∉ (checkGroupEmailsRaw db input g?).notInGroup) ∧
      (findGroupWithMember db e = none →
        e ∈ (checkGroupEmailsRaw db input g?).validEmails ∧
        e ∉ (checkGroupEmailsRaw db input g?).alreadyInGroup ∧
        e ∉ (checkGroupEmailsRaw db input g?).membersNotFound ∧
        e ∉ (checkGroupEmailsRaw db input g?).notInGroup)) ∧
    (∀ u gname, findUserByEmail db e = some u → g? = some gname →
      (∀ grp, findGroupByNameWithMember db gname e = some grp →
        e ∈ (checkGroupEmailsRaw db input g?).validEmails ∧
        e ∉ (checkGroupEmailsRaw db input g?).notInGroup ∧
        e ∉ (checkGroupEmailsRaw db input g?).membersNotFound ∧
        e ∉ (checkGroupEmailsRaw db input g?).alreadyInGroup) ∧
      (findGroupByNameWithMember db gname e = none →
        e ∈ (checkGroupEmailsRaw db input g?).notInGroup ∧
        e ∉ (checkGroupEmailsRaw db input g?).validEmails ∧
        e ∉ (checkGroupEmailsRaw db input g?).membersNotFound ∧
        e ∉ (checkGroupEmailsRaw db input g?).alreadyInGroup)) := by
  cases g? with
  | none =>
    refine ⟨fun hu => ?_,
      fun u hs _ => ⟨fun grp hgs => ?_, fun hgn => ?_⟩,
      fun u gname hs h => Option.noConfusion h⟩
    · simp [checkGroupEmailsRaw, List.mem_filter, he, hu]
    · simp [checkGroupEmailsRaw, List.mem_filter, he, hs, hgs]
    · simp [checkGroupEmailsRaw, List.mem_filter, he, hs, hgn]
  | some g =>
    refine ⟨fun hu => ?_, fun u hs h => Option.noConfusion h,
      fun u gname hs h => ?_⟩
    · simp [checkGroupEmailsRaw, List.mem_filter, he, hu]
    · cases h
      refine ⟨fun grp hgs => ?_, fun hgn => ?_⟩
      · simp [checkGroupEmailsRaw, List.mem_filter, he, hs, hgs]
      · simp [checkGroupEmailsRaw, List.mem_filter, he, hs, hgn]

/-- Concrete instance of `claim2_placement`: unregistered `c@x.com` lands
in `membersNotFound` and nowhere else. -/
theorem claim2_placement_witness :
    "c@x.com" ∈ (checkGroupEmailsRaw dbAB ["a@x.com", "b@x.com", "c@x.com"]
        none).membersNotFound ∧
    "c@x.com" ∉ (checkGroupEmailsRaw dbAB ["a@x.com", "b@x.com", "c@x.com"]
        none).validEmails ∧
    "c@x.com" ∉ (checkGroupEmailsRaw dbAB ["a@x.com", "b@x.com", "c@x.com"]
        none).alreadyInGroup ∧
    "c@x.com" ∉ (checkGroupEmailsRaw dbAB ["a@x.com", "b@x.com", "c@x.com"]
        none).notInGroup :=
  (claim2_placement dbAB ["a@x.com", "b@x.com", "c@x.com"] none "c@x.com"
    (by decide)).1 (by decide)

/-- Claim C3: every element of the four arrays `checkGroupEmails` returns
is `undefined`; consequently each of `createGroup`, `addToGroup`,
`removeFromGroup` that passes all its checks with at least one valid email
throws reading `.email` of `undefined` in the member-building step,
responds 500 with the store unchanged, and never returns the documented
success body. -/
theorem claim3_undefined_outputs :
    (∀ (db : Database) (input : List String) (g? : Option String),
      (∀ x ∈ (checkGroupEmails db input g?).validEmails, x = none) ∧
      (∀ x ∈ (checkGroupEmails db input g?).alreadyInGroup, x = none) ∧
      (∀ x ∈ (checkGroupEmails db input g?).membersNotFound, x = none) ∧
      (∀ x ∈ (checkGroupEmails db input g?).notInGroup, x = none)) ∧
    (∀ (db : Database) (req : Request) (n : String) (es : List String),
      req.bodyName = some n → req.memberEmails = some es →
      req.groupAuth.authorized = true → findGroupByName db n = none →
      (checkGroupEmailsRaw db es none).validEmails ≠ [] →
      createGroup db req = (.err 500 "Cannot read properties of undefined", db)) ∧
    (∀ (db : Database) (req : Request) (n : String) (es : List String),
      req.paramsName = some n → req.memberEmails = some es →
      req.userAdminAuth.authorized = true →
      routeDispatch req "add" "insert" req.groupAuth req.adminAuth = none →
      (findGroupByName db n).isNone = false →
      (es.any fun e => !isEmail e) = false →
      (checkGroupEmailsRaw db es none).validEmails ≠ [] →
      addToGroup db req = (.err 500 "Cannot read properties of undefined", db)) ∧
    (∀ (db : Database) (req : Request) (es : List String),
      req.memberEmails = some es →
      routeDispatch req "remove" "pull" req.groupAuth req.adminAuth = none →
      (findGroupByNameOpt db req.paramsName).isNone = false →
      (checkGroupEmailsRaw db es req.paramsName).validEmails ≠ [] →
      removeFromGroup db req
        = (.err 500 "Cannot read properties of undefined", db)) := by
  refine ⟨?_, ?_, ?_, ?_⟩
  · intro db input g?
    exact ⟨mapDiscard_allNone _, mapDiscard_allNone _,
      mapDiscard_allNone _, mapDiscard_allNone _⟩
  · intro db req n es hn hes ha hg hv
    exact createGroup_crash db req n es hn hes ha hg hv
  · intro db req n es h1 h2 h3 h4 h5 h6 h7
    exact addToGroup_crash db req n es h1 h2 h3 h4 h5 h6 h7
  · intro db req es h1 h2 h3 h4
    exact removeFromGroup_crash db req es h1 h2 h3 h4

/-- A fully valid `createGroup` request over `dbAB` (fresh name `H`, one
registered group-free email). -/
def reqCreateOk : Request := { baseReq with bodyName := some "H", memberEmails := some ["a@x.com"] }

/-- A fully valid `addToGroup` request over `dbAB` (existing group `G`,
the `add` route). -/
def reqAddOk : Request := { baseReq with paramsName := some "G", memberEmails := some ["a@x.com"], pathSegments := ["", "groups", "G", "add"] }

/-- A fully valid `removeFromGroup` request over `dbAB` (existing group
`G`, its member `b@x.com`, the `remove` route). -/
def reqRemoveOk : Request := { baseReq with paramsName := some "G", memberEmails := some ["b@x.com"], pathSegments := ["", "groups", "G", "remove"] }

/-- Concrete instances of `claim3_undefined_outputs`: all three mutating
controllers answer 500 on fully valid requests and change nothing. -/
theorem claim3_undefined_outputs_witness :
    createGroup dbAB reqCreateOk
      = (.err 500 "Cannot read properties of undefined", dbAB) ∧
    addToGroup dbAB reqAddOk
      = (.err 500 "Cannot read properties of undefined", dbAB) ∧
    removeFromGroup dbAB reqRemoveOk
      = (.err 500 "Cannot read properties of undefined", dbAB) :=
  ⟨claim3_undefined_outputs.2.1 dbAB _ "H" ["a@x.com"] rfl rfl rfl (by decide)
      (by decide),
   claim3_undefined_outputs.2.2.1 dbAB _ "G" ["a@x.com"] rfl rfl rfl (by decide)
      (by decide) (by decide) (by decide),
   claim3_undefined_outputs.2.2.2 dbAB _ ["b@x.com"] rfl (by decide) (by decide)
      (by decide)⟩

/-- The store `dbAB` with two transactions of user `ua` (one carrying the
email field `a@x.com`). -/
def dbTx : Database := { dbAB with transactions := [{ username := "ua", email := "a@x.com" }, { username := "ua", email := "t2@x.com" }] }

/-- An authorized admin `deleteUser` request for the existing user
`a@x.com`. -/
def reqDeleteUser : Request := { baseReq with bodyEmail := some "a@x.com" }

/-- Claim C4 fails on the code: an authorized `deleteUser` of an existing
user deletes matching transactions and then calls `.forEach` on the
un-awaited `Group.find()` query, throwing a `TypeError`; the controller
answers 500, the user record is never deleted, and the documented success
body is never returned. -/
theorem claim4_deleteUser_throws :
    deleteUser dbTx reqDeleteUser
      = (.rawMsg 500 "userGroup.forEach is not a function",
          { dbTx with transactions := [{ username := "ua", email := "t2@x.com" }] }) ∧
    (findUserByEmail (deleteUser dbTx reqDeleteUser).2 "a@x.com").isSome = true ∧
    (deleteUser dbTx reqDeleteUser).1.status = 500 := by
  decide

/-- An authorized `createGroup` request whose name collides with the
stored group `G`. -/
def reqDupName : Request := { baseReq with bodyName := some "G", memberEmails := some ["a@x.com"] }

/-- An authorized `createGroup` request with a syntactically invalid
candidate email. -/
def reqBadEmail : Request := { baseReq with bodyName := some "H", memberEmails := some ["notanemail"] }

/-- Claim C5 fails on the code (and the repository unit tests agree with
the claim): a duplicate group name is answered with status 401, not 400,
and `createGroup` performs no syntactic email validation at all — the
invalid email just falls through classification to the generic 401. -/
theorem claim5_createGroup_status :
    (createGroup dbAB reqDupName).1
      = .err 401 "A group with the same name already exists" ∧
    (createGroup dbAB reqDupName).1.status ≠ 400 ∧
    isEmail "notanemail" = false ∧
    (createGroup dbAB reqBadEmail).1 = .err 401 "All the emails are invalid" ∧
    (createGroup dbAB reqBadEmail).1.status ≠ 400 := by
  decide

/-- An `addToGroup` request whose multi-auth check fails *and* whose
`name` parameter is missing. -/
def reqC6 : Request := { baseReq with userAdminAuth := authNo, memberEmails := some ["a@x.com"], pathSegments := ["", "groups", "G", "add"] }

/-- Claim C6 is false on the code: when both the authorization check and
the input validation fail, `addToGroup` answers the missing-parameters 400
outcome, not the Unauthorized one — validation of missing parameters runs
before the auth check. -/
theorem claim6_counterexample :
    reqC6.userAdminAuth.authorized = false ∧
    (addToGroup dbAB reqC6).1.status = 400 ∧
    (addToGroup dbAB reqC6).1 ≠ .err 401 reqC6.userAdminAuth.cause := by
  decide

/-- Claim C6 amended: every operation short-circuits at its first failing
check, and no storage mutation happens unless authorization and validation
both succeeded (the three group-mutating controllers never mutate at all);
`deleteUser` and `deleteGroup` check authorization first and answer
Unauthorized even on missing inputs, but `createGroup`, `addToGroup` and
`removeFromGroup` check for missing parameters *before* authorization, so
when both fail the missing-parameters outcome wins. -/
theorem claim6_amended_phases :
    (∀ (db : Database) (req : Request), (createGroup db req).2 = db) ∧
    (∀ (db : Database) (req : Request), (addToGroup db req).2 = db) ∧
    (∀ (db : Database) (req : Request), (removeFromGroup db req).2 = db) ∧
    (∀ (db : Database) (req : Request), req.adminAuth.authorized = false →
      deleteUser db req = (.msg 401 "Unauthorized: user is not an admin!", db) ∧
      deleteGroup db req = (.msg 401 "Unauthorized: user is not an admin!", db)) ∧
    (∀ (db : Database) (req : Request), req.bodyEmail = none →
      (deleteUser db req).2 = db) ∧
    (∀ (db : Database) (req : Request), req.groupAuth.authorized = false →
      (deleteGroup db req).2 = db) ∧
    (∀ (db : Database) (req : Request),
      req.bodyName = none ∨ req.memberEmails = none →
      (createGroup db req).1 = .msg 401 "Missing parameters") ∧
    (∀ (db : Database) (req : Request),
      req.paramsName = none ∨ req.memberEmails = none →
      (addToGroup db req).1
        = .err 400 "The request body does not contain all the necessary attributes") ∧
    (∀ (db : Database) (req : Request), req.memberEmails = none →
      (removeFromGroup db req).1 = .err 401 "Missing parameters") ∧
    (∀ (db : Database) (req : Request) (n : String) (es : List String),
      req.bodyName = some n → req.memberEmails = some es →
      req.groupAuth.authorized = false →
      (createGroup db req).1 = .err 401 req.groupAuth.cause) ∧
    (∀ (db : Database) (req : Request) (n : String) (es : List String),
      req.paramsName = some n → req.memberEmails = some es →
      req.userAdminAuth.authorized = false →
      (addToGroup db req).1 = .err 401 req.userAdminAuth.cause) := by
  refine ⟨createGroup_snd, addToGroup_snd, removeFromGroup_snd,
    ?_, ?_, ?_, ?_, ?_, ?_, ?_, ?_⟩
  · intro db req h
    exact ⟨by simp [deleteUser, h], by simp [deleteGroup, h]⟩
  · intro db req h
    cases hb : req.adminAuth.authorized <;> simp [deleteUser, hb, h]
  · intro db req h
    cases hb : req.adminAuth.authorized <;> simp [deleteGroup, hb]
    cases hn : req.bodyName <;> simp
    split
    · rfl
    · simp [h]
  · intro db req h
    cases h1 : req.bodyName <;> cases h2 : req.memberEmails <;>
      simp_all [createGroup]
  · intro db req h
    cases h1 : req.paramsName <;> cases h2 : req.memberEmails <;>
      simp_all [addToGroup]
  · intro db req h
    cases h2 : req.memberEmails <;> simp_all [removeFromGroup]
  · intro db req n es hn hes ha
    obtain ⟨bn, pn, me, be, pu, rt, ps, ga, aa, ua⟩ := req
    simp only at hn hes ha
    subst hn; subst hes
    simp [createGroup, ha]
  · intro db req n es hn hes ha
    obtain ⟨bn, pn, me, be, pu, rt, ps, ga, aa, ua⟩ := req
    simp only at hn hes ha
    subst hn; subst hes
    simp [addToGroup, ha]

/-- A `deleteUser` request with the admin check denied. -/
def reqDeleteNoAuth : Request := { baseReq with adminAuth := authNo, bodyEmail := some "a@x.com" }

/-- A well-formed `createGroup` request with the `Group` check denied. -/
def reqCreateNoAuth : Request := { baseReq with bodyName := some "H", memberEmails := some ["a@x.com"], groupAuth := authNo }

/-- Concrete instances of `claim6_amended_phases`. -/
theorem claim6_amended_phases_witness :
    (createGroup dbAB reqDupName).2 = dbAB ∧
    deleteUser dbAB reqDeleteNoAuth
      = (.msg 401 "Unauthorized: user is not an admin!", dbAB) ∧
    (createGroup dbAB { baseReq with userAdminAuth := authNo }).1
      = .msg 401 "Missing parameters" ∧
    (createGroup dbAB reqCreateNoAuth).1 = .err 401 "Unauthorized" :=
  ⟨claim6_amended_phases.1 dbAB reqDupName,
   (claim6_amended_phases.2.2.2.1 dbAB reqDeleteNoAuth rfl).1,
   claim6_amended_phases.2.2.2.2.2.2.1 dbAB _ (Or.inl rfl),
   claim6_amended_phases.2.2.2.2.2.2.2.2.2.1 dbAB reqCreateNoAuth "H"
     ["a@x.com"] rfl rfl rfl⟩

/-- A `removeFromGroup` request with bad route intent and no
`memberEmails` body. -/
def reqC7 : Request := { baseReq with pathSegments := ["", "groups", "G", "foo"] }

/-- Claim C7 is false on the code: with route intent `foo` *and* a
missing `memberEmails` body, `removeFromGroup` answers the 401
missing-parameters outcome, not a 400 — the body check runs before the
route-intent check. -/
theorem claim7_counterexample :
    lastSegment reqC7 ≠ some "remove" ∧ lastSegment reqC7 ≠ some "pull" ∧
    (removeFromGroup dbAB reqC7).1.status = 401 ∧
    (removeFromGroup dbAB reqC7).1.status ≠ 400 := by
  decide

/-- Claim C7 amended: whenever the `memberEmails` body is present, a
route intent that is neither `remove` nor `pull` is answered 400
`Path not correct`, regardless of every other input (auth state, group
name, group existence), with the store untouched. -/
theorem claim7_amended_route (db : Database) (req : Request) (es : List String)
    (h1 : req.memberEmails = some es)
    (h2 : lastSegment req ≠ some "remove")
    (h3 : lastSegment req ≠ some "pull") :
    removeFromGroup db req = (.err 400 "Path not correct", db) := by
  obtain ⟨bn, pn, me, be, pu, rt, ps, ga, aa, ua⟩ := req
  simp only [lastSegment] at h2 h3
  simp only at h1
  subst h1
  simp [removeFromGroup, routeDispatch, lastSegment, h2, h3]

/-- A bad-route-intent `removeFromGroup` request that does carry a body. -/
def reqC7b : Request := { baseReq with memberEmails := some ["b@x.com"], pathSegments := ["", "groups", "G", "foo"] }

/-- Concrete instance of `claim7_amended_route`. -/
theorem claim7_amended_route_witness :
    removeFromGroup dbAB reqC7b = (.err 400 "Path not correct", dbAB) :=
  claim7_amended_route dbAB reqC7b ["b@x.com"] rfl (by decide) (by decide)

/-- Claim C8: after any `removeFromGroup` call the store is unchanged, so
in particular every group document still exists (even when every remaining
member was asked to be removed), nothing outside the members field is
touched, and a group that existed under the requested name still exists.
(It holds because the member pull is dead code behind the throwing
member-building step; no call ever mutates the group.) -/
theorem claim8_remove_frame (db : Database) (req : Request) :
    (removeFromGroup db req).2 = db ∧
    (∀ g ∈ db.groups, g ∈ (removeFromGroup db req).2.groups) ∧
    (∀ n, req.paramsName = some n → (findGroupByName db n).isSome = true →
      (findGroupByName (removeFromGroup db req).2 n).isSome = true) := by
  refine ⟨removeFromGroup_snd db req, ?_, ?_⟩
  · intro g hg
    rw [removeFromGroup_snd]
    exact hg
  · intro n hn hs
    rw [removeFromGroup_snd]
    exact hs

/-- Concrete instance of `claim8_remove_frame` on a remove-all-members
request. -/
theorem claim8_remove_frame_witness :
    (removeFromGroup dbAB reqRemoveOk).2 = dbAB ∧
    grpG ∈ (removeFromGroup dbAB reqRemoveOk).2.groups ∧
    (findGroupByName (removeFromGroup dbAB reqRemoveOk).2 "G").isSome = true :=
  ⟨(claim8_remove_frame dbAB reqRemoveOk).1,
   (claim8_remove_frame dbAB reqRemoveOk).2.1 grpG (by decide),
   (claim8_remove_frame dbAB reqRemoveOk).2.2 "G" rfl (by decide)⟩

/-- Claim C9: `getUser` ignores the `username` path parameter — two
requests differing only in that parameter (and the path carrying it) get
identical responses — and resolves the user from the session-bound refresh
token, answering 400 when no user matches it. -/
theorem claim9_getUser_session (db : Database) (req : Request)
    (u : Option String) (p : List String) :
    getUser db { req with paramsUsername := u, pathSegments := p }
      = getUser db req ∧
    (req.userAdminAuth.authorized = true →
      (∀ t, req.refreshToken = some t →
        db.users.find? (fun x => x.refreshToken = some t) = none →
        (getUser db req).1 = .err 400 "User not found") ∧
      (∀ t v, req.refreshToken = some t →
        db.users.find? (fun x => x.refreshToken = some t) = some v →
        (getUser db req).1
          = .userSuccess { username := v.username, email := v.email, role := v.role })) := by
  refine ⟨?_, fun ha => ⟨fun t ht hn => ?_, fun t v ht hv => ?_⟩⟩
  · simp [getUser]
  · simp [getUser, ha, ht, hn]
  · simp [getUser, ha, ht, hv]

/-- A `getUser` request authenticated with user `ub`'s refresh token but a
different `username` path parameter. -/
def reqGetUser : Request := { baseReq with paramsUsername := some "ua", refreshToken := some "tokB" }

/-- Same session as `reqGetUser`, different `username` path parameter. -/
def reqGetUser2 : Request := { reqGetUser with paramsUsername := some "other", pathSegments := ["", "users", "other"] }

/-- Concrete instance of `claim9_getUser_session`: the response follows
the session cookie (`ub`), not the path parameter (`ua`/`other`). -/
theorem claim9_getUser_session_witness :
    getUser dbAB reqGetUser2 = getUser dbAB reqGetUser ∧
    (getUser dbAB reqGetUser).1
      = .userSuccess { username := "ub", email := "b@x.com", role := "Regular" } :=
  ⟨(claim9_getUser_session dbAB reqGetUser (some "other")
      ["", "users", "other"]).1,
   ((claim9_getUser_session dbAB reqGetUser (some "other")
      ["", "users", "other"]).2 rfl).2 "tokB" userB rfl (by decide)⟩

/-- Claim C10: with both parameters present, `addToGroup` answers 401
whenever the `[User, Admin]` multi-auth check fails, and — when it passes —
whenever the route-specific check fails (`Group` for `add`, `Admin` for
`insert`); the multi-auth check runs before the route-intent dispatch, so
the 400 `Path not correct` response is only ever produced for callers who
passed the multi-auth check. -/
theorem claim10_addToGroup_auth :
    (∀ (db : Database) (req : Request) (n : String) (es : List String),
      req.paramsName = some n → req.memberEmails = some es →
      ((req.userAdminAuth.authorized = false →
        (addToGroup db req).1 = .err 401 req.userAdminAuth.cause) ∧
       (req.userAdminAuth.authorized = true → lastSegment req = some "add" →
        req.groupAuth.authorized = false →
        (addToGroup db req).1 = .err 401 req.groupAuth.cause) ∧
       (req.userAdminAuth.authorized = true → lastSegment req = some "insert" →
        req.adminAuth.authorized = false →
        (addToGroup db req).1 = .err 401 req.adminAuth.cause))) ∧
    (∀ (db : Database) (req : Request),
      (addToGroup db req).1 = .err 400 "Path not correct" →
      req.userAdminAuth.authorized = true) := by
  constructor
  · intro db req n es hn hes
    obtain ⟨bn, pn, me, be, pu, rt, ps, ga, aa, ua⟩ := req
    simp only at hn hes
    subst hn; subst hes
    refine ⟨fun hua => ?_, fun hua hseg hga => ?_, fun hua hseg haa => ?_⟩
    · simp only at hua
      simp [addToGroup, hua]
    · simp only at hua hga
      simp only [lastSegment] at hseg
      simp [addToGroup, routeDispatch, lastSegment, hua, hseg, hga]
    · simp only at hua haa
      simp only [lastSegment] at hseg
      simp [addToGroup, routeDispatch, lastSegment, hua, hseg, haa]
  · intro db req h
    by_cases hua : req.userAdminAuth.authorized
    · exact hua
    · exfalso
      have hua' : req.userAdminAuth.authorized = false := by simpa using hua
      cases h1 : req.paramsName <;> cases h2 : req.memberEmails <;>
        simp_all [addToGroup]

/-- An `add`-route request with the multi-auth check denied. -/
def reqAddNoMulti : Request := { baseReq with paramsName := some "G", memberEmails := some ["a@x.com"], pathSegments := ["", "groups", "G", "add"], userAdminAuth := authNo }

/-- An `add`-route request with the `Group` check denied. -/
def reqAddNoGroupAuth : Request := { baseReq with paramsName := some "G", memberEmails := some ["a@x.com"], pathSegments := ["", "groups", "G", "add"], groupAuth := authNo }

/-- An `insert`-route request with the `Admin` check denied. -/
def reqInsertNoAdmin : Request := { baseReq with paramsName := some "G", memberEmails := some ["a@x.com"], pathSegments := ["", "groups", "G", "insert"], adminAuth := authNo }

/-- A fully authorized request with an unrecognized route intent. -/
def reqBadPath : Request := { baseReq with paramsName := some "G", memberEmails := some ["a@x.com"], pathSegments := ["", "groups", "G", "foo"] }

/-- Concrete instances of `claim10_addToGroup_auth`. -/
theorem claim10_addToGroup_auth_witness :
    (addToGroup dbAB reqAddNoMulti).1 = .err 401 "Unauthorized" ∧
    (addToGroup dbAB reqAddNoGroupAuth).1 = .err 401 "Unauthorized" ∧
    (addToGroup dbAB reqInsertNoAdmin).1 = .err 401 "Unauthorized" ∧
    ((addToGroup dbAB reqBadPath).1 = .err 400 "Path not correct" ∧
      reqBadPath.userAdminAuth.authorized = true) :=
  ⟨(claim10_addToGroup_auth.1 dbAB reqAddNoMulti "G" ["a@x.com"] rfl rfl).1 rfl,
   (claim10_addToGroup_auth.1 dbAB reqAddNoGroupAuth "G" ["a@x.com"] rfl
     rfl).2.1 rfl rfl rfl,
   (claim10_addToGroup_auth.1 dbAB reqInsertNoAdmin "G" ["a@x.com"] rfl
     rfl).2.2 rfl rfl rfl,
   by decide,
   claim10_addToGroup_auth.2 dbAB reqBadPath (by decide)⟩
